import Mathlib

/-!
Shallow embedding of packages/keystone-nextjs-auth/src/index.ts.

JS strings are Lean String, JS objects are Lean structures, possibly-undefined
values are Option, thrown configuration errors are Except String, async
functions are pure functions (every awaited value is finalized before use in
the source). External collaborators (the identity-provider session lookup, the
privileged list count, template generation) appear as parameters or opaque
tokens.
-/

/-- Character-list helper: pat is a prefix of l (JS startsWith on the data). -/
def listIsPrefix : List Char → List Char → Bool
  | [], _ => true
  | _ :: _, [] => false
  | a :: as, b :: bs => a = b && listIsPrefix as bs

/-- Character-list helper: pat occurs as a contiguous run inside l. -/
def listIncludes : List Char → List Char → Bool
  | [], pat => pat.isEmpty
  | c :: t, pat => listIsPrefix pat (c :: t) || listIncludes t pat

/-- Model of JS s.includes(pat): pat occurs as a substring of s. -/
def strIncludes (s pat : String) : Bool :=
  listIncludes s.data pat.data

/-- Model of JS s.startsWith(pat), used only to state the spec-side reading
of "under the auth-API path prefix". -/
def strStarts (s pat : String) : Bool :=
  listIsPrefix pat.data s.data

/-- Characters kept by pathname extraction: everything before the query or
fragment delimiter. -/
def takeUntilQueryFrag : List Char → List Char
  | [] => []
  | c :: t => if c = '?' || c = '#' then [] else c :: takeUntilQueryFrag t

/-- Model of url.parse(u).pathname for server-relative request urls (Node
req.url): the part of the url before any query string or fragment. -/
def pathnameOf (u : String) : String :=
  String.mk (takeUntilQueryFrag u.data)

/-- Model of JSON.stringify on the plain identifier strings used as field
names (no characters needing escapes). -/
def jsonStringifyStr (s : String) : String :=
  "\"" ++ s ++ "\""

/-- The AuthConfig input of createAuth (src/index.ts lines 26-35). autoCreate,
userMap, accountMap and profileMap feed only the generated template files
(external collaborators) and play no role in the embedded logic. -/
structure AuthConfig where
  listKey : String
  identityField : String
  sessionData : Option String
  keystonePath : String

/-- The AuthGqlNames record (src/index.ts lines 40-49). -/
structure AuthGqlNames where
  authenticateItemWithPassword : String
  ItemAuthenticationWithPasswordResult : String
  ItemAuthenticationWithPasswordSuccess : String
  ItemAuthenticationWithPasswordFailure : String
  CreateInitialInput : String
  createInitialItem : String

/-- gqlNames as computed by createAuth from listKey (src/index.ts lines 40-49). -/
def authGqlNames (listKey : String) : AuthGqlNames :=
  { authenticateItemWithPassword := "authenticate" ++ listKey ++ "WithPassword"
    ItemAuthenticationWithPasswordResult := listKey ++ "AuthenticationWithPasswordResult"
    ItemAuthenticationWithPasswordSuccess := listKey ++ "AuthenticationWithPasswordSuccess"
    ItemAuthenticationWithPasswordFailure := listKey ++ "AuthenticationWithPasswordFailure"
    CreateInitialInput := "CreateInitial" ++ listKey ++ "Input"
    createInitialItem := "createInitial" ++ listKey }

/-- Arguments reaching pageMiddleware: the request url (context.req.url), the
truthiness of context.session, and the isValidSession flag. -/
structure PageMiddlewareArgs where
  reqUrl : String
  isValidSession : Bool
  sessionDefined : Bool

/-- pageMiddleware (src/index.ts lines 61-78). The result some t is the
source's redirect object with kind redirect and target t; none is the
source's undefined return, meaning continue. -/
def pageMiddleware (A : AuthConfig) (a : PageMiddlewareArgs) : Option String :=
  let pathname := pathnameOf a.reqUrl
  if a.isValidSession then
    if pathname = A.keystonePath ++ "/api/auth/signin" then some A.keystonePath
    else none
  else
    if !a.sessionDefined && !(strIncludes pathname (A.keystonePath ++ "/api/auth/")) then
      some (A.keystonePath ++ "/api/auth/signin")
    else none

/-- publicPages (src/index.ts lines 118-127), verbatim string templates
including the misspelled fourth entry. -/
def publicPages (A : AuthConfig) : List String :=
  [ A.keystonePath ++ "/api/auth/csrf"
  , A.keystonePath ++ "/api/auth/signin"
  , A.keystonePath ++ "/api/auth/signin/auth0"
  , A.keystonePath ++ "/api/auth/callack"
  , A.keystonePath ++ "/api/auth/callback/auth0"
  , A.keystonePath ++ "/api/auth/session"
  , A.keystonePath ++ "/api/auth/providers"
  , A.keystonePath ++ "/api/auth/signout" ]

/-- Modelled from the spec: getSchemaExtension (imported from ./schema, a file
not present under src/). Per spec section 4.5 the GraphQL Auth Extension adds
exactly the two generated operations, named deterministically from listKey, to
an existing schema; a schema is modelled as its list of field names. -/
def getSchemaExtension (identityField listKey : String) (gqlNames : AuthGqlNames) :
    List String → List String :=
  fun schema => schema ++ [gqlNames.authenticateItemWithPassword, gqlNames.createInitialItem]

/-- A schema is observed through the names it defines. -/
abbrev Schema := List String

/-- The extendGraphqlSchema constant built by createAuth (src/index.ts
lines 134-138). -/
def authExtendGraphqlSchema (A : AuthConfig) : Schema → Schema :=
  getSchemaExtension A.identityField A.listKey (authGqlNames A.listKey)

/-- A list config as validateConfig observes it: the set of its field names. -/
structure ListConfig where
  fields : List String

/-- First-match lookup in the lists object (a JS object literal cannot repeat
keys, so first-match agrees with object lookup). -/
def lookupList : List (String × ListConfig) → String → Option ListConfig
  | [], _ => none
  | (k, lc) :: t, key => if k = key then some lc else lookupList t key

/-- A request as the wrapped session strategy sees it. -/
structure SessReq where
  url : String

/-- A session strategy: get resolves a session value from a request; start and
sessEnd stand for the strategy's remaining capabilities, which the wrapper
copies through untouched. The session value itself is opaque (a String). -/
structure SessionStrategy where
  start : Nat
  sessEnd : Nat
  get : SessReq → Option String

/-- A parsed referer url as isAccessAllowed observes it (new URL(referer)). -/
structure RefererUrl where
  pathname : String
  host : String

/-- The request headers isAccessAllowed reads. The referer field holds the
parse of the referer header when one is present. -/
structure ReqHeaders where
  xForwardedHost : Option String
  host : Option String
  referer : Option RefererUrl

/-- The context reaching isAccessAllowed: headers (none when context.req or
its headers are absent), the truthiness of context.session, and the
privileged count context.sudo().lists[k].count for each list key k. -/
structure AccessContext where
  headers : Option ReqHeaders
  sessionDefined : Bool
  sudoCount : String → Nat

/-- An entry of the ui.getAdditionalFiles list: either an opaque caller
callback or this system's template-generating callback (src/index.ts
lines 88-111, whose body writes external template files). -/
inductive AdditionalFilesFn
  | caller (id : Nat)
  | authFiles
deriving DecidableEq

/-- The ui sub-config fields this system reads or writes; otherUi stands for
every other caller ui field, carried through the object spread. -/
structure UIConfig where
  otherUi : Nat
  publicPages : Option (List String)
  getAdditionalFiles : Option (List AdditionalFilesFn)
  pageMiddleware : Option (PageMiddlewareArgs → Option String)
  enableSessionItem : Option Bool
  isAccessAllowed : Option (AccessContext → Bool)

/-- The host KeystoneConfig fields this system reads or writes; otherFields
stands for every other caller field, carried through the object spread. -/
structure KeystoneConfig where
  lists : List (String × ListConfig)
  ui : Option UIConfig
  session : Option SessionStrategy
  extendGraphqlSchema : Option (Schema → Schema)
  otherFields : Nat

/-- validateConfig (src/index.ts lines 145-161): throwing becomes an
Except.error carrying the thrown message. -/
def validateConfig (A : AuthConfig) (cfg : KeystoneConfig) : Except String Unit :=
  match lookupList cfg.lists A.listKey with
  | none =>
      .error ("A createAuth() invocation specifies the list \"" ++ A.listKey ++
        "\" but no list with that key has been defined.")
  | some lc =>
      if A.identityField ∈ lc.fields then .ok ()
      else
        .error ("A createAuth() invocation for the \"" ++ A.listKey ++
          "\" list specifies " ++ jsonStringifyStr A.identityField ++
          " as its identityField but no field with that key exists on the list.")

/-- withItemData (src/index.ts lines 171-188). getSession is the external
identity-provider session lookup, passed as a parameter. The destructuring
drops the base strategy's get and keeps everything else. -/
def withItemData (getSession : SessReq → Option String) (s : SessionStrategy) :
    SessionStrategy :=
  { start := s.start
    sessEnd := s.sessEnd
    get := fun req =>
      let pathname := pathnameOf req.url
      if strIncludes pathname "/api/auth" then none
      else
        match getSession req with
        | some nextSession => some nextSession
        | none => none }

/-- The host value computed inside isAccessAllowed (src/index.ts
lines 218-221): headers absent gives null; otherwise the x-forwarded-host
header unless it is absent or empty (JS falsy), in which case the host
header. -/
def requestHost : Option ReqHeaders → Option String
  | none => none
  | some h =>
      match h.xForwardedHost with
      | some s => if s = "" then h.host else some s
      | none => h.host

/-- The composed isAccessAllowed installed by withAuth (src/index.ts
lines 215-235), with the caller's original predicate as a parameter. -/
def isAccessAllowed (A : AuthConfig) (callerPred : Option (AccessContext → Bool))
    (ctx : AccessContext) : Bool :=
  let host := requestHost ctx.headers
  let thisUrl : Option RefererUrl :=
    match ctx.headers with
    | none => none
    | some h => h.referer
  let accessingInitPage : Bool :=
    match thisUrl with
    | none => false
    | some u =>
        decide (u.pathname = "/init") && decide (host = some u.host) &&
          decide (ctx.sudoCount A.listKey = 0)
  accessingInitPage ||
    (match callerPred with
     | some p => p ctx
     | none => ctx.sessionDefined)

/-- The composed ui.pageMiddleware installed by withAuth (src/index.ts
lines 211-213): this system's decision, and on its undefined the caller's
middleware applied to the same arguments (undefined when the caller has
none, through the optional chain). -/
def composePageMiddleware (A : AuthConfig)
    (caller : Option (PageMiddlewareArgs → Option String))
    (args : PageMiddlewareArgs) : Option String :=
  match pageMiddleware A args with
  | some r => some r
  | none =>
      match caller with
      | some m => m args
      | none => none

/-- The composed extendGraphqlSchema installed by withAuth (src/index.ts
lines 250-252): when the caller has an extension f, the schema flows through
this system's extension and then f; otherwise this system's extension alone. -/
def composeExtendGraphqlSchema (A : AuthConfig) (existing : Option (Schema → Schema)) :
    Schema → Schema :=
  match existing with
  | some f => fun schema => f (authExtendGraphqlSchema A schema)
  | none => authExtendGraphqlSchema A

/-- The ui computation of withAuth (src/index.ts lines 202-237): untouched
when the caller supplied no ui, otherwise the caller's ui spread with this
system's overrides. -/
def composeUi (A : AuthConfig) (ui0 : Option UIConfig) : Option UIConfig :=
  match ui0 with
  | none => none
  | some u =>
      some
        { otherUi := u.otherUi
          publicPages := some (u.publicPages.getD [] ++ publicPages A)
          getAdditionalFiles :=
            some (u.getAdditionalFiles.getD [] ++ [AdditionalFilesFn.authFiles])
          pageMiddleware := some (composePageMiddleware A u.pageMiddleware)
          enableSessionItem := some true
          isAccessAllowed := some (isAccessAllowed A u.isAccessAllowed) }

/-- withAuth (src/index.ts lines 200-254). getSession is the external
identity-provider lookup threaded to withItemData. -/
def withAuth (A : AuthConfig) (getSession : SessReq → Option String)
    (cfg : KeystoneConfig) : Except String KeystoneConfig :=
  match validateConfig A cfg with
  | .error e => .error e
  | .ok _ =>
      let ui := composeUi A cfg.ui
      let session : Option SessionStrategy :=
        match cfg.session, A.sessionData with
        | some s, some _ => some (withItemData getSession s)
        | s, _ => s
      .ok
        { lists := cfg.lists
          ui := ui
          session := session
          extendGraphqlSchema := some (composeExtendGraphqlSchema A cfg.extendGraphqlSchema)
          otherFields := cfg.otherFields }

/-- The successfully composed config, when there is one. -/
def okConfigOf : Except String KeystoneConfig → Option KeystoneConfig
  | .ok c => some c
  | .error _ => none

/-- Projection: the ui field of a successfully composed config. -/
def uiOfResult (r : Except String KeystoneConfig) : Option (Option UIConfig) :=
  (okConfigOf r).map fun c => c.ui

/-- Projection: the ui.publicPages list of a successfully composed config. -/
def publicPagesOfResult (r : Except String KeystoneConfig) : Option (Option (List String)) :=
  (okConfigOf r).map fun c =>
    match c.ui with
    | some u => u.publicPages
    | none => none

/-- Projection: the ui.pageMiddleware of a successfully composed config. -/
def uiPageMiddlewareOf (r : Except String KeystoneConfig) :
    Option (PageMiddlewareArgs → Option String) :=
  match okConfigOf r with
  | some c =>
      match c.ui with
      | some u => u.pageMiddleware
      | none => none
  | none => none

/-- Projection: the session field of a successfully composed config. -/
def sessionOfResult (r : Except String KeystoneConfig) : Option (Option SessionStrategy) :=
  (okConfigOf r).map fun c => c.session

/-- Projection: the composed extendGraphqlSchema applied to a schema. -/
def extendApply (r : Except String KeystoneConfig) (s : Schema) : Option Schema :=
  match okConfigOf r with
  | some c =>
      match c.extendGraphqlSchema with
      | some f => some (f s)
      | none => none
  | none => none

/-- Shared fixture: an auth config for a User list with identity field email
and an empty mount path. -/
def userAuthConfig : AuthConfig :=
  { listKey := "User", identityField := "email", sessionData := none, keystonePath := "" }

/-- Shared fixture: a lists object holding exactly the User list with an
email field. -/
def userLists : List (String × ListConfig) :=
  [("User", { fields := ["email"] })]

/-- C1, counterexample. The claim reads "the path is not under the auth-API
path prefix" as a prefix test, but the source tests substring containment
(pathname.includes): for the request path /x/api/auth/y with no session, the
path does not start with the auth-API prefix /api/auth/, so the claim's third
rule demands a redirect to the sign-in page, yet pageMiddleware continues
(returns none). -/
theorem pageMiddleware_spec_counterexample :
    strStarts (pathnameOf "/x/api/auth/y") ("" ++ "/api/auth/") = false ∧
    pageMiddleware userAuthConfig
      { reqUrl := "/x/api/auth/y", isValidSession := false, sessionDefined := false } =
      none := by
  decide

/-- C1, amended. The four ordered rules of pageMiddleware as the source
implements them: with a valid session, a request whose path equals the
sign-in page path is redirected to the mount root and every other request
continues; with an invalid session, a request is redirected to the sign-in
page when the session value is absent and the path does not contain the
auth-API path segment as a substring, and continues when the session value
is present or the path contains that segment. -/
theorem pageMiddleware_rules (A : AuthConfig) (a : PageMiddlewareArgs) :
    (a.isValidSession = true →
      pathnameOf a.reqUrl = A.keystonePath ++ "/api/auth/signin" →
      pageMiddleware A a = some A.keystonePath) ∧
    (a.isValidSession = true →
      pathnameOf a.reqUrl ≠ A.keystonePath ++ "/api/auth/signin" →
      pageMiddleware A a = none) ∧
    (a.isValidSession = false → a.sessionDefined = false →
      strIncludes (pathnameOf a.reqUrl) (A.keystonePath ++ "/api/auth/") = false →
      pageMiddleware A a = some (A.keystonePath ++ "/api/auth/signin")) ∧
    (a.isValidSession = false →
      (a.sessionDefined = true ∨
        strIncludes (pathnameOf a.reqUrl) (A.keystonePath ++ "/api/auth/") = true) →
      pageMiddleware A a = none) := by
  refine ⟨?_, ?_, ?_, ?_⟩
  · intro hv hp
    simp [pageMiddleware, hv, hp]
  · intro hv hp
    simp [pageMiddleware, hv, hp]
  · intro hv hs hi
    simp [pageMiddleware, hv, hs, hi]
  · intro hv hd
    rcases hd with hd | hd <;> simp [pageMiddleware, hv, hd]

/-- C1, witness for pageMiddleware_rules at a concrete valid-session request
to the sign-in page. -/
theorem pageMiddleware_rules_witness :
    pathnameOf "/api/auth/signin" = "" ++ "/api/auth/signin" ∧
    pageMiddleware userAuthConfig
      { reqUrl := "/api/auth/signin", isValidSession := true, sessionDefined := true } =
      some "" :=
  ⟨by decide,
    (pageMiddleware_rules userAuthConfig
      { reqUrl := "/api/auth/signin", isValidSession := true, sessionDefined := true }).1
      rfl (by decide)⟩

/-- C2, code bug. Composing withAuth over a host config whose ui.publicPages
is the one-entry list /home yields the caller's entry followed by the 8 fixed
entries, but the fourth fixed entry is the misspelled /api/auth/callack
(src/index.ts line 122), not the /api/auth/callback route the claim (and the
identity provider) name. -/
theorem publicPages_callack_bug :
    publicPagesOfResult (withAuth userAuthConfig (fun _ => none)
      { lists := userLists
        ui := some
          { otherUi := 0
            publicPages := some ["/home"]
            getAdditionalFiles := none
            pageMiddleware := none
            enableSessionItem := none
            isAccessAllowed := none }
        session := none
        extendGraphqlSchema := none
        otherFields := 0 }) =
      some (some ["/home", "/api/auth/csrf", "/api/auth/signin", "/api/auth/signin/auth0",
        "/api/auth/callack", "/api/auth/callback/auth0", "/api/auth/session",
        "/api/auth/providers", "/api/auth/signout"]) ∧
    "/api/auth/callack" ≠ "/api/auth/callback" := by
  exact ⟨rfl, by decide⟩

/-- C8. The wrapped strategy's get returns no session on every request whose
path contains the auth-API segment, for every identity-provider lookup
function (so the provider is never consulted there); on every other request
it returns exactly the identity-provider's result; and the wrap preserves the
base strategy's other capabilities. -/
theorem withItemData_get_spec (gs : SessReq → Option String) (s : SessionStrategy)
    (req : SessReq) :
    (strIncludes (pathnameOf req.url) "/api/auth" = true →
      (withItemData gs s).get req = none) ∧
    (strIncludes (pathnameOf req.url) "/api/auth" = false →
      (withItemData gs s).get req = gs req) ∧
    (withItemData gs s).start = s.start ∧
    (withItemData gs s).sessEnd = s.sessEnd := by
  refine ⟨?_, ?_, rfl, rfl⟩
  · intro h
    simp [withItemData, h]
  · intro h
    rcases hg : gs req with _ | v <;> simp [withItemData, h, hg]

/-- C8, witness for withItemData_get_spec: a request to the session endpoint
with a provider session available still resolves to no session. -/
theorem withItemData_get_spec_witness :
    strIncludes (pathnameOf "/api/auth/session") "/api/auth" = true ∧
    (withItemData (fun _ => some "providerSession")
        { start := 1, sessEnd := 2, get := fun _ => none }).get
      { url := "/api/auth/session" } = none :=
  ⟨by decide,
    (withItemData_get_spec (fun _ => some "providerSession")
        { start := 1, sessEnd := 2, get := fun _ => none }
        { url := "/api/auth/session" }).1 (by decide)⟩

/-- C3, counterexample. With a caller extension that appends the field X, the
composed extendGraphqlSchema produced by withAuth maps the empty schema to
this system's two operations followed by X: the system's extension ran first
and the caller's ran on its result, which is the opposite of the claim's
caller-first order (whose result would be X followed by the two operations). -/
theorem extendGraphqlSchema_order_counterexample :
    extendApply (withAuth userAuthConfig (fun _ => none)
      { lists := userLists
        ui := none
        session := none
        extendGraphqlSchema := some (fun s => s ++ ["X"])
        otherFields := 0 }) [] =
      some ["authenticateUserWithPassword", "createInitialUser", "X"] ∧
    some ["authenticateUserWithPassword", "createInitialUser", "X"] ≠
      some (authExtendGraphqlSchema userAuthConfig ((fun (s : Schema) => s ++ ["X"]) [])) := by
  exact ⟨rfl, by decide⟩

/-- C3, amended. When the caller supplies an extension f, the composed
extendGraphqlSchema applies this system's extension to the schema first and
then f to the result (so this system's effects are visible to the caller's
extension, not vice versa); when the caller supplies none, this system's
extension is used directly. -/
theorem extendGraphqlSchema_order (A : AuthConfig) (gs : SessReq → Option String)
    (cfg : KeystoneConfig) (hv : validateConfig A cfg = .ok ()) :
    (∀ f, cfg.extendGraphqlSchema = some f →
      ∀ s, extendApply (withAuth A gs cfg) s = some (f (authExtendGraphqlSchema A s))) ∧
    (cfg.extendGraphqlSchema = none →
      ∀ s, extendApply (withAuth A gs cfg) s = some (authExtendGraphqlSchema A s)) := by
  constructor
  · intro f hf s
    simp [withAuth, hv, extendApply, okConfigOf, composeExtendGraphqlSchema, hf]
  · intro hf s
    simp [withAuth, hv, extendApply, okConfigOf, composeExtendGraphqlSchema, hf]

/-- C3, witness for extendGraphqlSchema_order at a concrete config whose
caller extension appends X. -/
theorem extendGraphqlSchema_order_witness :
    validateConfig userAuthConfig
      { lists := userLists
        ui := none
        session := none
        extendGraphqlSchema := some (fun s => s ++ ["X"])
        otherFields := 0 } = .ok () ∧
    extendApply (withAuth userAuthConfig (fun _ => none)
      { lists := userLists
        ui := none
        session := none
        extendGraphqlSchema := some (fun s => s ++ ["X"])
        otherFields := 0 }) [] =
      some ((fun (s : Schema) => s ++ ["X"]) (authExtendGraphqlSchema userAuthConfig [])) :=
  ⟨rfl,
    (extendGraphqlSchema_order userAuthConfig (fun _ => none)
      { lists := userLists
        ui := none
        session := none
        extendGraphqlSchema := some (fun s => s ++ ["X"])
        otherFields := 0 } rfl).1 (fun s => s ++ ["X"]) rfl []⟩

/-- C4. The composed isAccessAllowed returns true exactly when either the
bootstrap carve-out holds — the request carries headers with a referer whose
path is /init and whose host equals the request host (x-forwarded-host when
present and nonempty, else the host header) and the privileged count of the
configured list is zero — or, failing that, the caller's predicate (when one
was supplied) returns true, or, with no caller predicate, the session value
is present; in particular when the three carve-out conditions hold the result
is true independently of the caller's predicate and of any session. -/
theorem isAccessAllowed_spec (A : AuthConfig) (callerPred : Option (AccessContext → Bool))
    (ctx : AccessContext) :
    isAccessAllowed A callerPred ctx = true ↔
      ((∃ h u, ctx.headers = some h ∧ h.referer = some u ∧ u.pathname = "/init" ∧
          requestHost ctx.headers = some u.host ∧ ctx.sudoCount A.listKey = 0) ∨
       (match callerPred with
        | some p => p ctx = true
        | none => ctx.sessionDefined = true)) := by
  rcases hctx : ctx.headers with _ | h
  · rcases callerPred with _ | p <;> simp [isAccessAllowed, hctx]
  · rcases href : h.referer with _ | u
    · rcases callerPred with _ | p <;> simp [isAccessAllowed, hctx, href]
    · rcases callerPred with _ | p <;>
        simp [isAccessAllowed, hctx, href, Bool.and_eq_true, decide_eq_true_eq] <;>
        tauto

/-- C5. withAuth fails with the list-not-found configuration error exactly as
validateConfig does when listKey is absent from the host lists; fails with
the field-not-found configuration error when the resolved list lacks the
identityField; and when both exist, validateConfig returns normally and
withAuth produces a composed config — the error cases yield no composed
config at all, so the error precedes composition. -/
theorem validateConfig_spec (A : AuthConfig) (gs : SessReq → Option String)
    (cfg : KeystoneConfig) :
    (lookupList cfg.lists A.listKey = none →
      withAuth A gs cfg = .error ("A createAuth() invocation specifies the list \"" ++
        A.listKey ++ "\" but no list with that key has been defined.")) ∧
    (∀ lc, lookupList cfg.lists A.listKey = some lc → A.identityField ∉ lc.fields →
      withAuth A gs cfg = .error ("A createAuth() invocation for the \"" ++ A.listKey ++
        "\" list specifies " ++ jsonStringifyStr A.identityField ++
        " as its identityField but no field with that key exists on the list.")) ∧
    (∀ lc, lookupList cfg.lists A.listKey = some lc → A.identityField ∈ lc.fields →
      validateConfig A cfg = .ok () ∧ ∃ out, withAuth A gs cfg = .ok out) := by
  refine ⟨?_, ?_, ?_⟩
  · intro hl
    simp [withAuth, validateConfig, hl]
  · intro lc hl hmem
    simp [withAuth, validateConfig, hl, hmem]
  · intro lc hl hmem
    have hv : validateConfig A cfg = .ok () := by simp [validateConfig, hl, hmem]
    refine ⟨hv, ?_⟩
    unfold withAuth
    rw [hv]
    exact ⟨_, rfl⟩

/-- C5, witness for validateConfig_spec at a concrete valid list/field pair. -/
theorem validateConfig_spec_witness :
    lookupList userLists "User" = some { fields := ["email"] } ∧
    validateConfig userAuthConfig
      { lists := userLists, ui := none, session := none,
        extendGraphqlSchema := none, otherFields := 0 } = .ok () ∧
    ∃ out, withAuth userAuthConfig (fun _ => none)
      { lists := userLists, ui := none, session := none,
        extendGraphqlSchema := none, otherFields := 0 } = .ok out :=
  ⟨rfl,
    (validateConfig_spec userAuthConfig (fun _ => none)
      { lists := userLists, ui := none, session := none,
        extendGraphqlSchema := none, otherFields := 0 }).2.2
      { fields := ["email"] } rfl (by decide)⟩

/-- C6. For a host config with a pre-existing ui.pageMiddleware m, the config
composed by withAuth installs exactly the composition that first evaluates
this system's page decision and, when it yields a redirect, returns that
redirect; and otherwise returns the result of m applied to the same
arguments. -/
theorem composedPageMiddleware_spec (A : AuthConfig) (gs : SessReq → Option String)
    (cfg : KeystoneConfig) (u : UIConfig) (m : PageMiddlewareArgs → Option String)
    (hv : validateConfig A cfg = .ok ()) (hui : cfg.ui = some u)
    (hm : u.pageMiddleware = some m) :
    uiPageMiddlewareOf (withAuth A gs cfg) = some (composePageMiddleware A (some m)) ∧
    ∀ args,
      (∀ r, pageMiddleware A args = some r →
        composePageMiddleware A (some m) args = some r) ∧
      (pageMiddleware A args = none →
        composePageMiddleware A (some m) args = m args) := by
  constructor
  · simp [withAuth, hv, uiPageMiddlewareOf, okConfigOf, composeUi, hui, hm]
  · intro args
    constructor
    · intro r hr
      simp [composePageMiddleware, hr]
    · intro hr
      simp [composePageMiddleware, hr]

/-- C6, witness for composedPageMiddleware_spec at a concrete config whose
caller middleware always redirects to /caller. -/
theorem composedPageMiddleware_spec_witness :
    validateConfig userAuthConfig
      { lists := userLists
        ui := some
          { otherUi := 0
            publicPages := none
            getAdditionalFiles := none
            pageMiddleware := some (fun _ => some "/caller")
            enableSessionItem := none
            isAccessAllowed := none }
        session := none
        extendGraphqlSchema := none
        otherFields := 0 } = .ok () ∧
    uiPageMiddlewareOf (withAuth userAuthConfig (fun _ => none)
      { lists := userLists
        ui := some
          { otherUi := 0
            publicPages := none
            getAdditionalFiles := none
            pageMiddleware := some (fun _ => some "/caller")
            enableSessionItem := none
            isAccessAllowed := none }
        session := none
        extendGraphqlSchema := none
        otherFields := 0 }) =
      some (composePageMiddleware userAuthConfig (some (fun _ => some "/caller"))) :=
  ⟨rfl,
    (composedPageMiddleware_spec userAuthConfig (fun _ => none)
      { lists := userLists
        ui := some
          { otherUi := 0
            publicPages := none
            getAdditionalFiles := none
            pageMiddleware := some (fun _ => some "/caller")
            enableSessionItem := none
            isAccessAllowed := none }
        session := none
        extendGraphqlSchema := none
        otherFields := 0 }
      { otherUi := 0
        publicPages := none
        getAdditionalFiles := none
        pageMiddleware := some (fun _ => some "/caller")
        enableSessionItem := none
        isAccessAllowed := none }
      (fun _ => some "/caller") rfl rfl rfl).1⟩

/-- C7. The composed config's session field is the withItemData wrap of the
caller's session strategy exactly when the caller configured both a session
strategy and sessionData; when either is missing, it is the caller's session
field unchanged. -/
theorem session_replacement_spec (A : AuthConfig) (gs : SessReq → Option String)
    (cfg : KeystoneConfig) (hv : validateConfig A cfg = .ok ()) :
    (∀ s d, cfg.session = some s → A.sessionData = some d →
      sessionOfResult (withAuth A gs cfg) = some (some (withItemData gs s))) ∧
    ((cfg.session = none ∨ A.sessionData = none) →
      sessionOfResult (withAuth A gs cfg) = some cfg.session) := by
  constructor
  · intro s d hs hd
    simp [withAuth, hv, sessionOfResult, okConfigOf, hs, hd]
  · intro h
    rcases h with h | h
    · rcases hd : A.sessionData with _ | d <;>
        simp [withAuth, hv, sessionOfResult, okConfigOf, h, hd]
    · rcases hs : cfg.session with _ | s <;>
        simp [withAuth, hv, sessionOfResult, okConfigOf, h, hs]

/-- C7, witness for session_replacement_spec: with a session strategy and
sessionData both configured, the composed session is the wrap. -/
theorem session_replacement_spec_witness :
    validateConfig
      { listKey := "User", identityField := "email", sessionData := some "id name",
        keystonePath := "" }
      { lists := userLists
        ui := none
        session := some { start := 1, sessEnd := 2, get := fun _ => none }
        extendGraphqlSchema := none
        otherFields := 0 } = .ok () ∧
    sessionOfResult (withAuth
      { listKey := "User", identityField := "email", sessionData := some "id name",
        keystonePath := "" } (fun _ => none)
      { lists := userLists
        ui := none
        session := some { start := 1, sessEnd := 2, get := fun _ => none }
        extendGraphqlSchema := none
        otherFields := 0 }) =
      some (some (withItemData (fun _ => none)
        { start := 1, sessEnd := 2, get := fun _ => none })) :=
  ⟨rfl,
    (session_replacement_spec
      { listKey := "User", identityField := "email", sessionData := some "id name",
        keystonePath := "" } (fun _ => none)
      { lists := userLists
        ui := none
        session := some { start := 1, sessEnd := 2, get := fun _ => none }
        extendGraphqlSchema := none
        otherFields := 0 } rfl).1
      { start := 1, sessEnd := 2, get := fun _ => none } "id name" rfl rfl⟩

/-- C10. When the caller's config has no ui sub-config, the config composed
by withAuth also has no ui sub-config, so no public pages, middleware,
access predicate or enableSessionItem flag are installed. -/
theorem ui_absent_spec (A : AuthConfig) (gs : SessReq → Option String)
    (cfg : KeystoneConfig) (hv : validateConfig A cfg = .ok ())
    (hui : cfg.ui = none) :
    uiOfResult (withAuth A gs cfg) = some none := by
  simp [withAuth, hv, uiOfResult, okConfigOf, composeUi, hui]

/-- C10, witness for ui_absent_spec at a concrete config without ui. -/
theorem ui_absent_spec_witness :
    validateConfig userAuthConfig
      { lists := userLists, ui := none, session := none,
        extendGraphqlSchema := none, otherFields := 0 } = .ok () ∧
    uiOfResult (withAuth userAuthConfig (fun _ => none)
      { lists := userLists, ui := none, session := none,
        extendGraphqlSchema := none, otherFields := 0 }) = some none :=
  ⟨rfl,
    ui_absent_spec userAuthConfig (fun _ => none)
      { lists := userLists, ui := none, session := none,
        extendGraphqlSchema := none, otherFields := 0 } rfl rfl⟩
